import Mathlib

/-!
Verification development for the SafeTrail backend (agent orchestration and
escalation engine).  The definitions below are shallow embeddings of the
Python source files `backend/agentic_ai.py`, `backend/conversational_interface.py`
and `backend/emergency_protocol.py`.  External collaborators (the Gemini
generation capability, the JSON decoder, the contact database, Twilio
delivery) are modelled as explicit parameters carrying their outcome
(`Except`/`Option`), exactly where the source performs the external call.
-/

namespace SafeTrail

/-! ## String helpers (Python `in`, `str.lower`, `str.find`, `str.rfind`, slices) -/

/-- Does the pattern occur at the head of the character list?
Helper for the Python substring test `pat in s`. -/
def charsStartWith (s pat : List Char) : Bool :=
  match pat with
  | [] => true
  | d :: ds =>
    match s with
    | [] => false
    | c :: cs => (c == d) && charsStartWith cs ds

/-- Does the pattern occur anywhere in the character list?  Models the
Python membership test `pat in s` on strings. -/
def charsContain (s pat : List Char) : Bool :=
  match s with
  | [] => charsStartWith [] pat
  | _ :: rest => charsStartWith s pat || charsContain rest pat

/-- Python `pat in s` on strings. -/
def strContainsSub (s pat : String) : Bool :=
  charsContain s.data pat.data

/-- Python `s.lower()` (ASCII, per-character lowering). -/
def pyLower (s : String) : String :=
  ⟨s.data.map Char.toLower⟩

/-- Python `s.find(c)`: index of the first occurrence, `-1` when absent. -/
def pyFind (s : List Char) (c : Char) : Int :=
  match s.findIdx? (· == c) with
  | some i => (i : Int)
  | none => -1

/-- Python `s.rfind(c)`: index of the last occurrence, `-1` when absent. -/
def pyRfind (s : List Char) (c : Char) : Int :=
  match s.reverse.findIdx? (· == c) with
  | some i => ((s.length - 1 - i : Nat) : Int)
  | none => -1

/-- Python slice `s[a:b]` for `0 ≤ a` and `0 ≤ b` (the only case the
source reaches: `a` is a successful `find` result and `b` is `rfind + 1`). -/
def pySlice (s : List Char) (a b : Int) : List Char :=
  (s.take b.toNat).drop a.toNat

/-! ## Conversation history window (`agentic_ai.py` lines 63-64 and 86-95) -/

/-- One entry of `self.conversation_history`: the dict
`{timestamp, user_input, context}` appended in
`process_natural_language_request` (lines 87-91). -/
structure Turn where
  timestamp : Nat
  userInput : String
  context : List (String × String)
deriving DecidableEq, Repr

/-- `self.conversation_history[-self.context_window:]` with
`context_window = 10`: the last ten entries (the whole list when it is
shorter). -/
def pyTail10 (l : List Turn) : List Turn :=
  l.drop (l.length - 10)

/-- Lines 86-95 of `agentic_ai.py`: append the new turn, then truncate to
the last `context_window = 10` entries when the window is exceeded. -/
def historyStep (h : List Turn) (t : Turn) : List Turn :=
  if (h ++ [t]).length > 10 then pyTail10 (h ++ [t]) else h ++ [t]

/-! ## Tool dispatcher (`agentic_ai.py` lines 67-76 and 316-335) -/

/-- The value stored in `results[action]` by `_execute_planned_actions`:
either the provider's structured result, the formatted error string built
in the `except` branch (line 333), or the formatted "not implemented"
string (line 330).  Structured tool results are abstracted as strings. -/
inductive DispatchResult where
  | ok (payload : String)
  | errorMsg (text : String)
  | notImplemented (text : String)
deriving DecidableEq, Repr

/-- Keys of `self.available_tools` (`agentic_ai.py` lines 67-76). -/
def availableToolNames : List String :=
  ["weather_api", "traffic_api", "news_api", "emergency_services",
   "route_optimizer", "risk_predictor", "safety_check", "learn_pattern"]

/-- Names `a` for which `hasattr(self, "_execute_" + a)` holds on
`AgenticAI`: the class defines exactly one method starting with
`_execute_`, namely `_execute_planned_actions` itself (line 316). -/
def execMethodNames : List String := ["planned_actions"]

/-- One iteration of the loop of `_execute_planned_actions`
(lines 320-333).  `providers` gives the outcome of awaiting
`self.available_tools[action]()` (an `.error` models a raised exception,
captured by the per-action `except`); `execMethods` gives the outcome of
the reflective `getattr(self, "_execute_" + action)()` call on the second
branch.  The Python `results` dict keyed by action is modelled as the
association list in action order (a duplicated action name recomputes the
same value, matching the dict overwrite). -/
def dispatchOne (providers : String → Except String String)
    (execMethods : String → Except String String)
    (action : String) : String × DispatchResult :=
  if action ∈ availableToolNames then
    match providers action with
    | .ok r => (action, .ok r)
    | .error e => (action, .errorMsg ("Error executing " ++ action ++ ": " ++ e))
  else if action ∈ execMethodNames then
    match execMethods action with
    | .ok r => (action, .ok r)
    | .error e => (action, .errorMsg ("Error executing " ++ action ++ ": " ++ e))
  else
    (action, .notImplemented ("Action \x27" ++ action ++ "\x27 not implemented"))

/-- The loop of `_execute_planned_actions` over the requested actions. -/
def execute_planned_actions (providers : String → Except String String)
    (execMethods : String → Except String String)
    (actions : List String) : List (String × DispatchResult) :=
  actions.map (dispatchOne providers execMethods)

/-! ## Full request path (`agentic_ai.py` lines 81-118) -/

/-- The response dictionary flowing through
`process_natural_language_request`; the fields are the keys the source
reads or writes on that path (`actions`, `action_results`, `error`,
`fallback_actions`, `response`). -/
structure AIResponse where
  response : String
  error : Option String := none
  actions : List String := []
  actionResults : Option (List (String × DispatchResult)) := none
  fallbackActions : List String := []
deriving DecidableEq, Repr

/-- The degraded response built in the `except` branch of
`process_natural_language_request` (lines 110-116). -/
def degradedResponse (e : String) : AIResponse :=
  { response := "I encountered an error processing your request. Let me try a different approach.",
    error := some e,
    fallbackActions := ["basic_safety_check"] }

/-- The body of the `try` block of `process_natural_language_request`
(lines 86-108) after the history append: `genOutcome` is the result of
`await self._generate_intelligent_response(...)` (line 98; the prompt is
built before that helper's internal `try`, so the call can raise), and
`execOutcome` is the result of `await self._execute_planned_actions(...)`
(line 102; iterating a non-list `actions` value raises).
`_learn_from_interaction` (line 106) wraps its whole body in
`try/except` and cannot raise, so it contributes nothing here. -/
def processBody (genOutcome : Except String AIResponse)
    (execOutcome : List String → Except String (List (String × DispatchResult))) :
    Except String AIResponse :=
  match genOutcome with
  | .error e => .error e
  | .ok resp =>
    if resp.actions ≠ [] then
      match execOutcome resp.actions with
      | .error e => .error e
      | .ok rs => .ok { resp with actionResults := some rs }
    else .ok resp

/-- `process_natural_language_request` (lines 81-118): append the turn to
the sliding history window, run the body, and convert any raised exception
into the degraded response.  Returns the response together with the
updated `self.conversation_history`. -/
def process_natural_language_request (genOutcome : Except String AIResponse)
    (execOutcome : List String → Except String (List (String × DispatchResult)))
    (now : Nat) (userInput : String) (context : Option (List (String × String)))
    (hist : List Turn) : AIResponse × List Turn :=
  let hist' := historyStep hist ⟨now, userInput, context.getD []⟩
  match processBody genOutcome execOutcome with
  | .ok r => (r, hist')
  | .error e => (degradedResponse e, hist')

/-- Fold a sequence of requests through
`process_natural_language_request`, tracking the conversation history. -/
def runRequests (genOutcome : Except String AIResponse)
    (execOutcome : List String → Except String (List (String × DispatchResult)))
    (reqs : List (Nat × String × Option (List (String × String))))
    (hist : List Turn) : List Turn :=
  reqs.foldl
    (fun h q => (process_natural_language_request genOutcome execOutcome q.1 q.2.1 q.2.2 h).2)
    hist

/-- The turn record a request appends (lines 87-91). -/
def mkTurn (q : Nat × String × Option (List (String × String))) : Turn :=
  ⟨q.1, q.2.1, q.2.2.getD []⟩

/-! ## Planner (`agentic_ai.py` lines 241-314) -/

/-- One element of the JSON array `_create_multi_step_plan` asks the model
for (lines 256-268), with the fields the fallback plan populates. -/
structure PlanStep where
  stepNumber : Nat
  action : String
  description : String
  toolsNeeded : List String
  successCriteria : String
  fallbackStep : String
  estimatedDuration : String
  safetyConsiderations : List String
deriving DecidableEq, Repr

/-- `_create_fallback_plan` (lines 291-314), field for field. -/
def create_fallback_plan : List PlanStep :=
  [{ stepNumber := 1,
     action := "assess_current_situation",
     description := "Evaluate current safety status and user needs",
     toolsNeeded := ["risk_predictor"],
     successCriteria := "Risk assessment completed",
     fallbackStep := "Use basic safety protocols",
     estimatedDuration := "2 minutes",
     safetyConsiderations := ["Ensure user location is known", "Check emergency contacts"] },
   { stepNumber := 2,
     action := "provide_safety_guidance",
     description := "Offer appropriate safety recommendations",
     toolsNeeded := ["route_optimizer"],
     successCriteria := "User receives actionable guidance",
     fallbackStep := "Escalate to emergency protocol if needed",
     estimatedDuration := "5 minutes",
     safetyConsiderations := ["Prioritize immediate safety", "Consider environmental factors"] }]

/-- The substring `plan_text[start_idx:end_idx]` extracted by
`_create_multi_step_plan` (lines 276-281): from the first occurrence of
the opening bracket to one past the last occurrence of the closing
bracket. -/
def extractSeg (s : String) : String :=
  ⟨pySlice s.data (pyFind s.data '[') (pyRfind s.data ']' + 1)⟩

/-- `_create_multi_step_plan` (lines 241-289).  `genOutcome` is the
outcome of `await self.model.generate_content_async(...)` (`.error`
models a raised exception); `jsonLoads` is the external `json.loads`
applied to the extracted segment, `none` modelling `JSONDecodeError`.
Both failure paths land in the `except` branch or the `else` branch and
return the fallback plan. -/
def create_multi_step_plan (jsonLoads : String → Option (List PlanStep))
    (genOutcome : Except String String) : List PlanStep :=
  match genOutcome with
  | .error _ => create_fallback_plan
  | .ok planText =>
    let startIdx := pyFind planText.data '['
    let endIdx := pyRfind planText.data ']' + 1
    if startIdx ≠ -1 ∧ endIdx ≠ -1 then
      match jsonLoads (extractSeg planText) with
      | some plan => plan
      | none => create_fallback_plan
    else create_fallback_plan

/-! ## Urgency classifier (`conversational_interface.py` lines 121-139) -/

/-- `critical_keywords` (line 126). -/
def criticalKeywords : List String :=
  ["emergency", "help", "danger", "urgent", "911", "police", "fire", "ambulance"]

/-- `high_keywords` (line 131). -/
def highKeywords : List String :=
  ["lost", "stuck", "scared", "unsafe", "threat", "suspicious"]

/-- `_assess_urgency` (lines 121-139): lower-case the message, then the
fixed cascade critical / high / intent-based medium / low. -/
def assess_urgency (message intent : String) : String :=
  let m := pyLower message
  if criticalKeywords.any (fun k => strContainsSub m k) then "critical"
  else if highKeywords.any (fun k => strContainsSub m k) then "high"
  else if intent == "safety_check" || intent == "route_planning" then "medium"
  else "low"

/-- The critical keyword list exactly as the claim enumerates it
(without `urgent`).  This definition follows the claim wording, not the
source; it exists to be compared against `assess_urgency`. -/
def claimCriticalKeywords : List String :=
  ["emergency", "help", "danger", "911", "police", "fire", "ambulance"]

/-- The urgency cascade exactly as the claim states it, with the claim's
enumerated critical-keyword set.  Follows the claim wording, to be
compared against the source-derived `assess_urgency`. -/
def claimUrgencyCascade (message intent : String) : String :=
  let m := pyLower message
  if claimCriticalKeywords.any (fun k => strContainsSub m k) then "critical"
  else if highKeywords.any (fun k => strContainsSub m k) then "high"
  else if intent == "safety_check" || intent == "route_planning" then "medium"
  else "low"

/-- The cascade as amended: identical to the claim's statement except
that `urgent` is restored to the critical keyword list, in the position
the source declares it. -/
def amendedUrgencyCascade (message intent : String) : String :=
  let m := pyLower message
  if criticalKeywords.any (fun k => strContainsSub m k) then "critical"
  else if highKeywords.any (fun k => strContainsSub m k) then "high"
  else if intent == "safety_check" || intent == "route_planning" then "medium"
  else "low"

/-! ## Escalation engine (`emergency_protocol.py`) -/

/-- `models.Location` as carried through the emergency protocol (latitude
and longitude are only formatted into messages, so they are kept
abstract as integers scaled from the source's coordinates). -/
structure EPLocation where
  lat : Int
  lng : Int
deriving DecidableEq, Repr

/-- The body of an SMS sent by the protocol: either the emergency alert
of `notify_emergency_contacts` (lines 52-65) or the update message of
`send_emergency_update` (lines 158-163), identified by its variable
parts. -/
inductive SmsKind where
  | emergencyAlert (reason : String) (loc : EPLocation)
  | update (userId : String) (update : String)
deriving DecidableEq, Repr

/-- The observable effects of the protocol: delivered/mocked SMS
(`send_sms`, lines 121-134), the mocked authority notification printed by
`escalate_to_authorities` (lines 78-99), and the supplementary safety
measures (lines 136-149) and their shutdown (lines 181-184). -/
inductive EPEvent where
  | smsSent (phone : String) (kind : SmsKind)
  | authorityMsg (userId : String) (reason : String)
  | continuousTracking (userId : String)
  | phoneAlarm (userId : String)
  | nearbyAlert (loc : EPLocation)
  | measuresDisabled (userId : String)
deriving DecidableEq, Repr

/-- The delayed `escalate_to_authorities` coroutine created by
`asyncio.create_task` in `activate_emergency_protocol` (line 40); it
fires (prints the authority message) once `asyncio.sleep(300)` elapses,
at `fireAt` = creation time + 300. -/
structure ScheduledEscalation where
  userId : String
  loc : EPLocation
  reason : String
  fireAt : Nat
deriving DecidableEq, Repr

/-- The outcome of `db.get_emergency_contacts(user_id)` — the external
contact directory; `.error` models a raised exception (caught by the
callers' `try/except`).  Contacts are represented by their phone
numbers. -/
structure EPConfig where
  contactsResult : Except String (List String)

/-- Protocol-level runtime state: current time, the pending delayed
escalation tasks of the asyncio loop, and the trace of observable
events. -/
structure EPState where
  now : Nat
  tasks : List ScheduledEscalation
  trace : List EPEvent
deriving DecidableEq, Repr

/-- The fresh state before any activation. -/
def epInit : EPState := { now := 0, tasks := [], trace := [] }

/-- `notify_emergency_contacts` (lines 45-72): fetch the contacts and send
each one the alert SMS; any exception (for example a failing contact
fetch) is caught and only logged, producing no events. -/
def notify_emergency_contacts (cfg : EPConfig) (reason : String) (loc : EPLocation)
    (trace : List EPEvent) : List EPEvent :=
  match cfg.contactsResult with
  | .ok cs => trace ++ cs.map (fun p => .smsSent p (.emergencyAlert reason loc))
  | .error _ => trace

/-- `send_emergency_update` (lines 151-169): fetch the contacts and send
each one the update SMS; exceptions are caught and only logged. -/
def send_emergency_update (cfg : EPConfig) (userId update : String)
    (trace : List EPEvent) : List EPEvent :=
  match cfg.contactsResult with
  | .ok cs => trace ++ cs.map (fun p => .smsSent p (.update userId update))
  | .error _ => trace

/-- `activate_emergency_protocol` (lines 30-43): notify the contacts,
create a new (untracked) delayed escalation task with a 300-second
deadline, then activate the supplementary safety measures
(`activate_safety_measures`, lines 106-119).  Note that the task is
appended unconditionally: no existing task is reused or cancelled, and no
handle to it is retained. -/
def activate_emergency_protocol (cfg : EPConfig) (userId : String) (loc : EPLocation)
    (reason : String) (st : EPState) : EPState :=
  let tr := notify_emergency_contacts cfg reason loc st.trace
  { now := st.now,
    tasks := st.tasks ++ [⟨userId, loc, reason, st.now + 300⟩],
    trace := tr ++ [.continuousTracking userId, .phoneAlarm userId, .nearbyAlert loc] }

/-- `resolve_emergency` (lines 171-179): send the `RESOLVED:` update to
the contacts and disable the supplementary measures.  The function never
raises (its only fallible call, `send_emergency_update`, catches
internally) and — faithfully to the source — does not touch the pending
task list: there is no cancellation step. -/
def resolve_emergency (cfg : EPConfig) (userId resolution : String)
    (st : EPState) : EPState :=
  { st with
    trace := send_emergency_update cfg userId ("RESOLVED: " ++ resolution) st.trace
             ++ [.measuresDisabled userId] }

/-- The asyncio scheduler advancing wall-clock time to `t`: every pending
`escalate_to_authorities` task whose 300-second sleep has elapsed runs
its remainder, printing the authority message (lines 78-99), and leaves
the task set. -/
def advanceTo (t : Nat) (st : EPState) : EPState :=
  { now := t,
    tasks := st.tasks.filter (fun task => t < task.fireAt),
    trace := st.trace ++
      (st.tasks.filter (fun task => task.fireAt ≤ t)).map
        (fun task => .authorityMsg task.userId task.reason) }

/-- Count of authority-escalation messages for a user in a trace. -/
def authorityCount (userId : String) (tr : List EPEvent) : Nat :=
  tr.countP fun e =>
    match e with
    | .authorityMsg u _ => u == userId
    | _ => false

/-- Count of `RESOLVED` update messages for a user in a trace (update SMS
whose text carries the `RESOLVED: ` marker prepended by
`resolve_emergency`). -/
def resolvedUpdateCount (userId : String) (tr : List EPEvent) : Nat :=
  tr.countP fun e =>
    match e with
    | .smsSent _ (.update u upd) =>
        u == userId && charsStartWith upd.data "RESOLVED: ".data
    | _ => false

/-! ## Dynamic attribute calls into the protocol
(`conversational_interface.py` lines 179-224, `agentic_ai.py` lines 612-632) -/

/-- The methods the `EmergencyProtocol` class defines
(`emergency_protocol.py` lines 30-184), i.e. the attribute names a
dynamic method call on an instance can resolve besides the `__init__`
credential fields. -/
def emergencyProtocolMethods : List String :=
  ["activate_emergency_protocol", "notify_emergency_contacts",
   "escalate_to_authorities", "activate_safety_measures", "send_sms",
   "enable_continuous_tracking", "activate_phone_alarm",
   "alert_nearby_users", "send_emergency_update", "resolve_emergency",
   "disable_emergency_measures"]

/-- Awaiting `self.emergency.<name>(...)`: the attribute lookup happens
before any method body runs, so a name the class does not define raises
`AttributeError` and produces no protocol events.  `impl` gives the
events a defined method would emit. -/
def epAttrCall (impl : String → List EPEvent) (name : String) :
    Except String (List EPEvent) :=
  if name ∈ emergencyProtocolMethods then .ok (impl name)
  else .error ("AttributeError: \x27EmergencyProtocol\x27 object has no attribute \x27"
               ++ name ++ "\x27")

/-- The response dictionary keys `_handle_special_cases` reads or writes
(`conversational_interface.py` lines 179-224). -/
structure ConvResponse where
  responseText : String := ""
  emergencyActivated : Bool := false
  immediateActions : List String := []
  enhancedMonitoring : Bool := false
  safetyEscalation : List String := []
  routeGuidance : Bool := false
  additionalInfo : List String := []
  learningConfirmed : Bool := false
  learningAcknowledgment : String := ""
deriving DecidableEq, Repr

/-- `_handle_special_cases` (lines 179-224).  Returns the updated
response together with the protocol events actually produced by the
branch taken; the `try/except` around the critical branch's
`trigger_emergency_alert` call swallows the exception (line 198-199). -/
def handle_special_cases (impl : String → List EPEvent)
    (intent urgency : String) (resp : ConvResponse) :
    ConvResponse × List EPEvent :=
  if urgency == "critical" then
    let r := { resp with
      emergencyActivated := true,
      immediateActions :=
        ["Emergency services have been notified",
         "Your location has been shared with emergency contacts",
         "Stay calm and follow emergency procedures"] }
    match epAttrCall impl "trigger_emergency_alert" with
    | .ok evs => (r, evs)
    | .error _ => (r, [])
  else if urgency == "high" then
    ({ resp with
       enhancedMonitoring := true,
       safetyEscalation :=
         ["Increased monitoring activated",
          "Emergency contacts will be notified if no response in 10 minutes",
          "Location tracking enabled"] }, [])
  else if intent == "route_planning" then
    ({ resp with
       routeGuidance := true,
       additionalInfo :=
         ["Real-time safety assessment included",
          "Alternative routes provided",
          "Continuous monitoring during journey"] }, [])
  else if intent == "learning_request" then
    ({ resp with
       learningConfirmed := true,
       learningAcknowledgment :=
         "I\x27ve noted your preference and will remember it for future interactions." },
     [])
  else (resp, [])

/-- `_take_proactive_action` (`agentic_ai.py` lines 612-632) restricted to
its observable protocol effect: on high risk it awaits
`self.emergency.send_safety_alert(...)`; the surrounding `try/except`
catches and logs any exception.  Returns the protocol events produced and
whether an exception was caught. -/
def take_proactive_action (impl : String → List EPEvent)
    (riskLevel : String) : List EPEvent × Bool :=
  if riskLevel == "high" then
    match epAttrCall impl "send_safety_alert" with
    | .ok evs => (evs, false)
    | .error _ => ([], true)
  else ([], false)

/-! ## Agent state and the monitoring loop (`agentic_ai.py` lines 18-23,
81-118, 558-579) -/

/-- The `AgentState` enum (lines 18-23). -/
inductive AgState where
  | idle
  | planning
  | monitoring
  | responding
  | learning
deriving DecidableEq, Repr

/-- The shared runtime of one agent: the single `self.state` field and
whether the `autonomous_monitoring` while-loop is still running. -/
structure AgentRt where
  state : AgState
  monitorLoopLive : Bool
deriving DecidableEq, Repr

/-- A fresh agent: `self.state = AgentState.IDLE` (line 42), no monitor
task. -/
def agInit : AgentRt := { state := .idle, monitorLoopLive := false }

/-- The scheduling events relevant to the shared `self.state` field:
entry into `autonomous_monitoring` (line 560 sets MONITORING and the loop
begins), one evaluation of the loop guard `self.state ==
AgentState.MONITORING` (line 562; the body itself never writes
`self.state`), entry into `process_natural_language_request` (line 83
sets RESPONDING), its `finally` clause (line 118 sets IDLE), and the
external stop in `end_conversation_session`
(`conversational_interface.py` line 344 sets IDLE). -/
inductive AgEvent where
  | startMonitoring
  | monitorCheck
  | requestBegin
  | requestFinish
  | sessionEnd
deriving DecidableEq, Repr

/-- Effect of one event on the shared agent runtime. -/
def agStep (st : AgentRt) (e : AgEvent) : AgentRt :=
  match e with
  | .startMonitoring => { state := .monitoring, monitorLoopLive := true }
  | .monitorCheck =>
      if st.monitorLoopLive then
        if st.state == .monitoring then st
        else { st with monitorLoopLive := false }
      else st
  | .requestBegin => { st with state := .responding }
  | .requestFinish => { st with state := .idle }
  | .sessionEnd => { st with state := .idle }

/-- Run a sequence of scheduling events. -/
def runAgent (st : AgentRt) (es : List AgEvent) : AgentRt :=
  es.foldl agStep st

/-! ## Lemmas about the history window -/

theorem historyStep_eq_pyTail10 (h : List Turn) (t : Turn) :
    historyStep h t = pyTail10 (h ++ [t]) := by
  unfold historyStep pyTail10
  split
  · rfl
  · next hnot =>
    rw [Nat.sub_eq_zero_of_le (by omega), List.drop_zero]

theorem pyTail10_append_single (x : List Turn) (t : Turn) :
    pyTail10 (pyTail10 x ++ [t]) = pyTail10 (x ++ [t]) := by
  unfold pyTail10
  by_cases hx : x.length ≤ 10
  · rw [Nat.sub_eq_zero_of_le hx, List.drop_zero]
  · push_neg at hx
    have hlen1 : (x.drop (x.length - 10)).length = 10 := by
      rw [List.length_drop]; omega
    rw [List.length_append, List.length_append, hlen1]
    rw [List.drop_append_eq_append_drop, List.drop_append_eq_append_drop,
        List.drop_drop, hlen1]
    have h10 : (10 : Nat) + [t].length - 10 = 1 := by simp
    have hxl : x.length + [t].length - 10 = x.length - 9 := by
      simp only [List.length_singleton]; omega
    rw [h10, hxl]
    have h1 : x.length - 10 + 1 = x.length - 9 := by omega
    rw [h1]
    have h2 : (1 : Nat) - 10 = 0 := by omega
    have h3 : x.length - 9 - x.length = 0 := by omega
    rw [h2, h3]

theorem foldl_historyStep (ts : List Turn) :
    List.foldl historyStep [] ts = pyTail10 ts := by
  induction ts using List.reverseRecOn with
  | nil => rfl
  | append_singleton xs t ih =>
    rw [List.foldl_append, List.foldl_cons, List.foldl_nil, ih,
        historyStep_eq_pyTail10, pyTail10_append_single]

theorem process_request_history (genOutcome : Except String AIResponse)
    (execOutcome : List String → Except String (List (String × DispatchResult)))
    (now : Nat) (userInput : String) (context : Option (List (String × String)))
    (hist : List Turn) :
    (process_natural_language_request genOutcome execOutcome now userInput context hist).2
      = historyStep hist ⟨now, userInput, context.getD []⟩ := by
  unfold process_natural_language_request
  cases processBody genOutcome execOutcome <;> rfl

/-- C6: after every call to `process_natural_language_request` the
conversation history holds at most 10 entries, and for every sequence of
11 sequential turns processed from a fresh agent, the first turn is no
longer present and the history equals exactly the last 10 turns in
arrival order. -/
theorem c6_history_window :
    (∀ (genOutcome : Except String AIResponse)
       (execOutcome : List String → Except String (List (String × DispatchResult)))
       (now : Nat) (userInput : String) (context : Option (List (String × String)))
       (hist : List Turn),
      ((process_natural_language_request genOutcome execOutcome
          now userInput context hist).2).length ≤ 10)
    ∧ (∀ (genOutcome : Except String AIResponse)
         (execOutcome : List String → Except String (List (String × DispatchResult)))
         (q : Nat × String × Option (List (String × String)))
         (qs : List (Nat × String × Option (List (String × String)))),
        qs.length = 10 →
        runRequests genOutcome execOutcome (q :: qs) [] = qs.map mkTurn) := by
  constructor
  · intro genOutcome execOutcome now userInput context hist
    rw [process_request_history, historyStep_eq_pyTail10]
    unfold pyTail10
    rw [List.length_drop]
    omega
  · intro genOutcome execOutcome q qs hlen
    have hstep : ∀ (h : List Turn) (r : Nat × String × Option (List (String × String))),
        (process_natural_language_request genOutcome execOutcome r.1 r.2.1 r.2.2 h).2
          = historyStep h (mkTurn r) := by
      intro h r
      rw [process_request_history]
      rfl
    have hrun : runRequests genOutcome execOutcome (q :: qs) []
        = List.foldl historyStep [] ((q :: qs).map mkTurn) := by
      unfold runRequests
      rw [List.foldl_map]
      congr 1
      funext h r
      rw [hstep]
    rw [hrun, foldl_historyStep]
    unfold pyTail10
    have h11 : ((q :: qs).map mkTurn).length = 11 := by
      rw [List.length_map, List.length_cons, hlen]
    rw [h11]
    show List.drop 1 (mkTurn q :: qs.map mkTurn) = qs.map mkTurn
    rw [List.drop_succ_cons, List.drop_zero]

/-- C6 witness: eleven concrete turns through a failing generation step;
the history is exactly turns two through eleven. -/
theorem c6_history_window_witness :
    runRequests (.error "model offline") (fun _ => .ok [])
      ((0, "t0", none) :: [(1, "t1", none), (2, "t2", none), (3, "t3", none),
        (4, "t4", none), (5, "t5", none), (6, "t6", none), (7, "t7", none),
        (8, "t8", none), (9, "t9", none), (10, "t10", none)]) []
      = [(1, "t1", none), (2, "t2", none), (3, "t3", none), (4, "t4", none),
         (5, "t5", none), (6, "t6", none), (7, "t7", none), (8, "t8", none),
         (9, "t9", none), (10, "t10", none)].map mkTurn :=
  c6_history_window.2 (.error "model offline") (fun _ => .ok [])
    (0, "t0", none) _ (by decide)

/-- C4: `process_natural_language_request` is a total function of the
outcomes of its internal steps — it never propagates an exception — and
whenever the body fails (the generation step raised, or dispatching the
planned actions raised), the returned response is the degraded response
carrying the error text in its `error` field and the non-empty fallback
action list `["basic_safety_check"]`. -/
theorem c4_degraded_response_on_failure
    (genOutcome : Except String AIResponse)
    (execOutcome : List String → Except String (List (String × DispatchResult)))
    (now : Nat) (userInput : String) (context : Option (List (String × String)))
    (hist : List Turn)
    (hfail : ∃ e, processBody genOutcome execOutcome = Except.error e) :
    ((process_natural_language_request genOutcome execOutcome
        now userInput context hist).1.error.isSome = true)
    ∧ (process_natural_language_request genOutcome execOutcome
        now userInput context hist).1.fallbackActions = ["basic_safety_check"]
    ∧ (process_natural_language_request genOutcome execOutcome
        now userInput context hist).1.response
        = "I encountered an error processing your request. Let me try a different approach." := by
  obtain ⟨e, he⟩ := hfail
  unfold process_natural_language_request
  rw [he]
  exact ⟨rfl, rfl, rfl⟩

/-- C4 witness: a concrete request whose generation step raises; the
caller receives the degraded response, not an exception. -/
theorem c4_degraded_response_on_failure_witness :
    ((process_natural_language_request (.error "Gemini API unreachable")
        (fun _ => .ok []) 0 "am i safe" none []).1.error.isSome = true)
    ∧ (process_natural_language_request (.error "Gemini API unreachable")
        (fun _ => .ok []) 0 "am i safe" none []).1.fallbackActions
        = ["basic_safety_check"]
    ∧ (process_natural_language_request (.error "Gemini API unreachable")
        (fun _ => .ok []) 0 "am i safe" none []).1.response
        = "I encountered an error processing your request. Let me try a different approach." :=
  c4_degraded_response_on_failure (.error "Gemini API unreachable")
    (fun _ => .ok []) 0 "am i safe" none [] ⟨"Gemini API unreachable", rfl⟩

/-- C7: when the generation call raises, or its output has no parseable
ordered list (no opening bracket, or the extracted segment fails JSON
decoding), `_create_multi_step_plan` returns the fixed two-step fallback
plan, whose step ordinals are exactly `[1, 2]` and whose steps each carry
a non-empty safety-consideration list; no failure propagates. -/
theorem c7_planner_fallback (jsonLoads : String → Option (List PlanStep))
    (genOutcome : Except String String)
    (hfail : (∃ e, genOutcome = Except.error e)
      ∨ (∃ s, genOutcome = Except.ok s ∧ jsonLoads (extractSeg s) = none)) :
    create_multi_step_plan jsonLoads genOutcome = create_fallback_plan
    ∧ create_fallback_plan.map (fun st => st.stepNumber) = [1, 2]
    ∧ ∀ st ∈ create_fallback_plan, st.safetyConsiderations ≠ [] := by
  refine ⟨?_, by decide, by decide⟩
  rcases hfail with ⟨e, rfl⟩ | ⟨s, rfl, hjl⟩
  · rfl
  · simp only [create_multi_step_plan]
    split
    · rw [hjl]
    · rfl

/-- C7 witness: prose output with no bracketed list, decoded by a JSON
decoder that rejects everything. -/
theorem c7_planner_fallback_witness :
    create_multi_step_plan (fun _ => none) (.ok "no structured output here")
      = create_fallback_plan
    ∧ create_fallback_plan.map (fun st => st.stepNumber) = [1, 2]
    ∧ ∀ st ∈ create_fallback_plan, st.safetyConsiderations ≠ [] :=
  c7_planner_fallback (fun _ => none) (.ok "no structured output here")
    (Or.inr ⟨"no structured output here", rfl, rfl⟩)

/-! ## Lemmas about the dispatcher -/

theorem dispatchOne_fst (providers execMethods : String → Except String String)
    (action : String) : (dispatchOne providers execMethods action).1 = action := by
  unfold dispatchOne
  repeat' split
  all_goals rfl

theorem dispatchOne_congr (providers providers2 execMethods : String → Except String String)
    (action : String) (h : providers action = providers2 action) :
    dispatchOne providers execMethods action = dispatchOne providers2 execMethods action := by
  unfold dispatchOne
  rw [h]

/-- C8: the dispatcher returns a result for every listed action in order;
an action absent from the tool registry and from the reflective
`_execute_` lookup yields the descriptive "not implemented" result; a
provider that raises has the exception captured as that action's error
result; and changing one provider's behaviour (for example, making it
raise) leaves every other action's result unchanged — the batch is never
aborted. -/
theorem c8_dispatcher_isolation
    (providers execMethods : String → Except String String)
    (actions : List String) :
    ((execute_planned_actions providers execMethods actions).map Prod.fst = actions)
    ∧ (∀ a, a ∈ actions → a ∉ availableToolNames → a ∉ execMethodNames →
        (a, DispatchResult.notImplemented ("Action \x27" ++ a ++ "\x27 not implemented"))
          ∈ execute_planned_actions providers execMethods actions)
    ∧ (∀ a e, a ∈ actions → a ∈ availableToolNames → providers a = .error e →
        (a, DispatchResult.errorMsg ("Error executing " ++ a ++ ": " ++ e))
          ∈ execute_planned_actions providers execMethods actions)
    ∧ (∀ (a0 : String) (providers2 : String → Except String String),
        (∀ b, b ≠ a0 → providers b = providers2 b) →
        List.Forall₂ (fun x y => x.1 ≠ a0 → x = y)
          (execute_planned_actions providers execMethods actions)
          (execute_planned_actions providers2 execMethods actions)) := by
  refine ⟨?_, ?_, ?_, ?_⟩
  · unfold execute_planned_actions
    rw [List.map_map]
    have : (Prod.fst ∘ dispatchOne providers execMethods) = id := by
      funext a
      exact dispatchOne_fst providers execMethods a
    rw [this, List.map_id]
  · intro a ha htool hexec
    refine List.mem_map.mpr ⟨a, ha, ?_⟩
    unfold dispatchOne
    rw [if_neg htool, if_neg hexec]
  · intro a e ha htool herr
    refine List.mem_map.mpr ⟨a, ha, ?_⟩
    unfold dispatchOne
    rw [if_pos htool, herr]
  · intro a0 providers2 hagree
    induction actions with
    | nil => exact List.Forall₂.nil
    | cons a l ih =>
      refine List.Forall₂.cons ?_ ih
      intro hne
      rw [dispatchOne_fst] at hne
      exact dispatchOne_congr providers providers2 execMethods a (hagree a hne)

/-- C8 witness: the batch `[weather_api, traffic_api, news_api]` with a
raising traffic provider — every action keeps a result and the raising
action's result is the captured error. -/
theorem c8_dispatcher_isolation_witness :
    ((execute_planned_actions
        (fun a => if a == "traffic_api" then .error "boom" else .ok "data")
        (fun _ => .ok "data")
        ["weather_api", "traffic_api", "news_api"]).map Prod.fst
      = ["weather_api", "traffic_api", "news_api"])
    ∧ ("traffic_api",
        DispatchResult.errorMsg ("Error executing " ++ "traffic_api" ++ ": " ++ "boom"))
        ∈ execute_planned_actions
            (fun a => if a == "traffic_api" then .error "boom" else .ok "data")
            (fun _ => .ok "data")
            ["weather_api", "traffic_api", "news_api"] :=
  ⟨(c8_dispatcher_isolation
      (fun a => if a == "traffic_api" then .error "boom" else .ok "data")
      (fun _ => .ok "data") ["weather_api", "traffic_api", "news_api"]).1,
   (c8_dispatcher_isolation
      (fun a => if a == "traffic_api" then .error "boom" else .ok "data")
      (fun _ => .ok "data") ["weather_api", "traffic_api", "news_api"]).2.2.1
     "traffic_api" "boom" (by decide) (by decide) rfl⟩

/-- C9 counterexample: the claim's cascade (whose enumerated critical
keyword set omits `urgent`) disagrees with `_assess_urgency` on the
message `"urgent"`: the source classifies it `critical` (its
`critical_keywords` list contains `urgent`), while the claim's cascade
yields `low` — so urgency classification does not follow the claim's
cascade. -/
theorem c9_urgency_cascade_cex :
    assess_urgency "urgent" "emergency" = "critical"
    ∧ claimUrgencyCascade "urgent" "emergency" = "low"
    ∧ assess_urgency "urgent" "emergency" ≠ claimUrgencyCascade "urgent" "emergency" := by
  refine ⟨?_, ?_, ?_⟩ <;> decide

/-- C9 amended: urgency classification follows the fixed priority cascade
with the critical keyword set including `urgent` (`emergency`, `help`,
`danger`, `urgent`, `911`, `police`, `fire`, `ambulance`): critical
keywords first regardless of intent, then high keywords, then
intent-based medium, else low. -/
theorem c9_urgency_cascade_amended (message intent : String) :
    assess_urgency message intent = amendedUrgencyCascade message intent := rfl

/-- C2: `EmergencyProtocol` defines neither `trigger_emergency_alert` nor
`send_safety_alert`; on a critical-urgency request the handler's dynamic
call therefore raises `AttributeError` before any protocol code runs, the
surrounding `except` swallows it — so no protocol event is produced, no
contact is notified and no escalation begins — while the returned
response still carries `emergency_activated = true`; the autonomous
monitor's high-risk path likewise produces no protocol event and catches
the exception. -/
theorem c2_undefined_emergency_attrs (impl : String → List EPEvent)
    (intent : String) (resp : ConvResponse) :
    ("trigger_emergency_alert" ∉ emergencyProtocolMethods)
    ∧ ("send_safety_alert" ∉ emergencyProtocolMethods)
    ∧ (handle_special_cases impl intent "critical" resp).1.emergencyActivated = true
    ∧ (handle_special_cases impl intent "critical" resp).2 = []
    ∧ take_proactive_action impl "high" = ([], true) := by
  have hattr : ∀ name, name ∉ emergencyProtocolMethods →
      epAttrCall impl name
        = .error ("AttributeError: \x27EmergencyProtocol\x27 object has no attribute \x27"
                  ++ name ++ "\x27") := by
    intro name hname
    unfold epAttrCall
    rw [if_neg hname]
  refine ⟨by decide, by decide, ?_, ?_, ?_⟩
  · unfold handle_special_cases
    rw [if_pos (by decide : ("critical" == "critical") = true),
        hattr "trigger_emergency_alert" (by decide)]
  · unfold handle_special_cases
    rw [if_pos (by decide : ("critical" == "critical") = true),
        hattr "trigger_emergency_alert" (by decide)]
  · unfold take_proactive_action
    rw [if_pos (by decide : ("high" == "high") = true),
        hattr "send_safety_alert" (by decide)]

/-! ## Lemmas about the escalation trace counters -/

theorem charsStartWith_append (a b : List Char) : charsStartWith (a ++ b) a = true := by
  induction a with
  | nil => simp [charsStartWith]
  | cons c cs ih => simpa [charsStartWith] using ih

@[simp] theorem authorityCount_nil (u : String) : authorityCount u [] = 0 := rfl

@[simp] theorem authorityCount_append (u : String) (a b : List EPEvent) :
    authorityCount u (a ++ b) = authorityCount u a + authorityCount u b :=
  List.countP_append _ a b

@[simp] theorem authorityCount_sms_cons (u p : String) (k : SmsKind) (tr : List EPEvent) :
    authorityCount u (EPEvent.smsSent p k :: tr) = authorityCount u tr := by
  rw [authorityCount, List.countP_cons]
  simp [authorityCount]

@[simp] theorem authorityCount_tracking_cons (u v : String) (tr : List EPEvent) :
    authorityCount u (EPEvent.continuousTracking v :: tr) = authorityCount u tr := by
  rw [authorityCount, List.countP_cons]
  simp [authorityCount]

@[simp] theorem authorityCount_alarm_cons (u v : String) (tr : List EPEvent) :
    authorityCount u (EPEvent.phoneAlarm v :: tr) = authorityCount u tr := by
  rw [authorityCount, List.countP_cons]
  simp [authorityCount]

@[simp] theorem authorityCount_nearby_cons (u : String) (loc : EPLocation) (tr : List EPEvent) :
    authorityCount u (EPEvent.nearbyAlert loc :: tr) = authorityCount u tr := by
  rw [authorityCount, List.countP_cons]
  simp [authorityCount]

@[simp] theorem authorityCount_disabled_cons (u v : String) (tr : List EPEvent) :
    authorityCount u (EPEvent.measuresDisabled v :: tr) = authorityCount u tr := by
  rw [authorityCount, List.countP_cons]
  simp [authorityCount]

@[simp] theorem authorityCount_auth_cons (u v r : String) (tr : List EPEvent) :
    authorityCount u (EPEvent.authorityMsg v r :: tr)
      = (if v == u then 1 else 0) + authorityCount u tr := by
  rw [authorityCount, List.countP_cons]
  by_cases h : (v == u) = true <;> simp [authorityCount, h, Nat.add_comm]

@[simp] theorem authorityCount_sms_map (u : String) (ps : List String) (f : String → SmsKind) :
    authorityCount u (ps.map fun p => EPEvent.smsSent p (f p)) = 0 := by
  induction ps with
  | nil => rfl
  | cons p ps ih => simp [ih]

@[simp] theorem resolvedUpdateCount_nil (u : String) : resolvedUpdateCount u [] = 0 := rfl

@[simp] theorem resolvedUpdateCount_append (u : String) (a b : List EPEvent) :
    resolvedUpdateCount u (a ++ b) = resolvedUpdateCount u a + resolvedUpdateCount u b :=
  List.countP_append _ a b

@[simp] theorem resolvedUpdateCount_alert_cons (u p : String) (r : String) (loc : EPLocation)
    (tr : List EPEvent) :
    resolvedUpdateCount u (EPEvent.smsSent p (SmsKind.emergencyAlert r loc) :: tr)
      = resolvedUpdateCount u tr := by
  rw [resolvedUpdateCount, List.countP_cons]
  simp [resolvedUpdateCount]

@[simp] theorem resolvedUpdateCount_update_cons (u p v upd : String) (tr : List EPEvent) :
    resolvedUpdateCount u (EPEvent.smsSent p (SmsKind.update v upd) :: tr)
      = (if v == u && charsStartWith upd.data "RESOLVED: ".data then 1 else 0)
        + resolvedUpdateCount u tr := by
  rw [resolvedUpdateCount, List.countP_cons]
  by_cases h : (v == u && charsStartWith upd.data "RESOLVED: ".data) = true <;>
    simp [resolvedUpdateCount, h, Nat.add_comm]

@[simp] theorem resolvedUpdateCount_auth_cons (u v r : String) (tr : List EPEvent) :
    resolvedUpdateCount u (EPEvent.authorityMsg v r :: tr) = resolvedUpdateCount u tr := by
  rw [resolvedUpdateCount, List.countP_cons]
  simp [resolvedUpdateCount]

@[simp] theorem resolvedUpdateCount_tracking_cons (u v : String) (tr : List EPEvent) :
    resolvedUpdateCount u (EPEvent.continuousTracking v :: tr) = resolvedUpdateCount u tr := by
  rw [resolvedUpdateCount, List.countP_cons]
  simp [resolvedUpdateCount]

@[simp] theorem resolvedUpdateCount_alarm_cons (u v : String) (tr : List EPEvent) :
    resolvedUpdateCount u (EPEvent.phoneAlarm v :: tr) = resolvedUpdateCount u tr := by
  rw [resolvedUpdateCount, List.countP_cons]
  simp [resolvedUpdateCount]

@[simp] theorem resolvedUpdateCount_nearby_cons (u : String) (loc : EPLocation)
    (tr : List EPEvent) :
    resolvedUpdateCount u (EPEvent.nearbyAlert loc :: tr) = resolvedUpdateCount u tr := by
  rw [resolvedUpdateCount, List.countP_cons]
  simp [resolvedUpdateCount]

@[simp] theorem resolvedUpdateCount_disabled_cons (u v : String) (tr : List EPEvent) :
    resolvedUpdateCount u (EPEvent.measuresDisabled v :: tr) = resolvedUpdateCount u tr := by
  rw [resolvedUpdateCount, List.countP_cons]
  simp [resolvedUpdateCount]

@[simp] theorem resolvedUpdateCount_alert_map (u : String) (ps : List String)
    (r : String) (loc : EPLocation) :
    resolvedUpdateCount u (ps.map fun p => EPEvent.smsSent p (SmsKind.emergencyAlert r loc))
      = 0 := by
  induction ps with
  | nil => rfl
  | cons p ps ih => simp [ih]

theorem resolvedUpdateCount_update_map (u res : String) (ps : List String) :
    resolvedUpdateCount u
        (ps.map fun p => EPEvent.smsSent p (SmsKind.update u ("RESOLVED: " ++ res)))
      = ps.length := by
  induction ps with
  | nil => rfl
  | cons p ps ih =>
    simp [ih, charsStartWith]
    omega

/-- C1 counterexample: activate at t=0 (deadline t=300), resolve at t=299
— before the deadline — yet advancing to t=300 still produces the
authority-escalation message: `resolve_emergency` cancels nothing. -/
theorem c1_resolve_no_cancellation_cex :
    ¬ (authorityCount "u7"
         (advanceTo 300 (resolve_emergency ⟨.ok ["5551234"]⟩ "u7" "made it home"
           (advanceTo 299 (activate_emergency_protocol ⟨.ok ["5551234"]⟩ "u7"
             ⟨37, -122⟩ "No check-in" epInit)))).trace = 0) := by decide

/-- C1 amended: `resolve` performs no cancellation step at all — called
before the 300-second deadline it leaves the delayed escalation task
scheduled and the authority-escalation message is still produced exactly
once when the deadline fires; called after the deadline it likewise
changes no scheduler state and completes without error (resolution is
total: its only fallible call catches internally). -/
theorem c1_escalation_fires_despite_resolve
    (cfg : EPConfig) (uid res res2 reason : String) (loc : EPLocation)
    (tr T : Nat) (h1 : tr < 300) (h2 : 300 ≤ T) :
    ((resolve_emergency cfg uid res
        (advanceTo tr (activate_emergency_protocol cfg uid loc reason epInit))).tasks
      = (advanceTo tr (activate_emergency_protocol cfg uid loc reason epInit)).tasks)
    ∧ authorityCount uid
        (advanceTo T (resolve_emergency cfg uid res
          (advanceTo tr (activate_emergency_protocol cfg uid loc reason epInit)))).trace = 1
    ∧ ((resolve_emergency cfg uid res2
          (advanceTo T (resolve_emergency cfg uid res
            (advanceTo tr (activate_emergency_protocol cfg uid loc reason epInit))))).tasks
        = (advanceTo T (resolve_emergency cfg uid res
            (advanceTo tr (activate_emergency_protocol cfg uid loc reason epInit)))).tasks) := by
  have h1' : ¬ (300 ≤ tr) := by omega
  have h2' : ¬ (T < 300) := by omega
  refine ⟨by simp [resolve_emergency], ?_, by simp [resolve_emergency]⟩
  obtain ⟨cr⟩ := cfg
  cases cr <;>
    simp [activate_emergency_protocol, advanceTo, resolve_emergency, epInit,
      notify_emergency_contacts, send_emergency_update, h1, h1', h2, h2']

/-- C1 witness: concrete instance with resolve at t=299 and the deadline
firing at t=300. -/
theorem c1_escalation_fires_despite_resolve_witness :
    ((resolve_emergency ⟨.ok ["5551234"]⟩ "u7" "made it home"
        (advanceTo 299 (activate_emergency_protocol ⟨.ok ["5551234"]⟩ "u7"
          ⟨37, -122⟩ "No check-in" epInit))).tasks
      = (advanceTo 299 (activate_emergency_protocol ⟨.ok ["5551234"]⟩ "u7"
          ⟨37, -122⟩ "No check-in" epInit)).tasks)
    ∧ authorityCount "u7"
        (advanceTo 300 (resolve_emergency ⟨.ok ["5551234"]⟩ "u7" "made it home"
          (advanceTo 299 (activate_emergency_protocol ⟨.ok ["5551234"]⟩ "u7"
            ⟨37, -122⟩ "No check-in" epInit)))).trace = 1
    ∧ ((resolve_emergency ⟨.ok ["5551234"]⟩ "u7" "second resolve"
          (advanceTo 300 (resolve_emergency ⟨.ok ["5551234"]⟩ "u7" "made it home"
            (advanceTo 299 (activate_emergency_protocol ⟨.ok ["5551234"]⟩ "u7"
              ⟨37, -122⟩ "No check-in" epInit))))).tasks
        = (advanceTo 300 (resolve_emergency ⟨.ok ["5551234"]⟩ "u7" "made it home"
            (advanceTo 299 (activate_emergency_protocol ⟨.ok ["5551234"]⟩ "u7"
              ⟨37, -122⟩ "No check-in" epInit)))).tasks) :=
  c1_escalation_fires_despite_resolve ⟨.ok ["5551234"]⟩ "u7" "made it home"
    "second resolve" "No check-in" ⟨37, -122⟩ 299 300 (by decide) (by decide)

/-- C3 counterexample: a second `activate` call for the same user while
escalation is already pending appends a second untracked delayed task —
two pending 300-second timers exist, and both authority messages fire at
the deadline. -/
theorem c3_second_activate_second_timer_cex :
    ¬ ((activate_emergency_protocol ⟨.ok ["5551234"]⟩ "u7" ⟨37, -122⟩ "No check-in"
         (activate_emergency_protocol ⟨.ok ["5551234"]⟩ "u7" ⟨37, -122⟩ "No check-in"
           epInit)).tasks.length ≤ 1)
    ∧ authorityCount "u7"
        (advanceTo 300
          (activate_emergency_protocol ⟨.ok ["5551234"]⟩ "u7" ⟨37, -122⟩ "No check-in"
            (activate_emergency_protocol ⟨.ok ["5551234"]⟩ "u7" ⟨37, -122⟩ "No check-in"
              epInit))).trace = 2 := by decide

/-- C3 amended: every `activate` call schedules one additional
independent 300-second escalation task — after `n` activations the
pending-task count has grown by exactly `n`; nothing reuses or rejects an
existing timer. -/
theorem c3_activate_adds_timer_each_call (cfg : EPConfig) (uid reason : String)
    (loc : EPLocation) (st : EPState) (n : Nat) :
    ((fun s => activate_emergency_protocol cfg uid loc reason s)^[n] st).tasks.length
      = st.tasks.length + n := by
  induction n generalizing st with
  | zero => simp
  | succ n ih =>
    rw [Function.iterate_succ_apply, ih]
    simp [activate_emergency_protocol]
    omega

/-- C5 counterexample: two `resolve` calls before the deadline produce
two RESOLVED notification batches (two messages to the single contact),
not one, and the authority message still fires at t=300. -/
theorem c5_double_resolve_cex :
    ¬ (resolvedUpdateCount "u7"
         (advanceTo 300 (resolve_emergency ⟨.ok ["5551234"]⟩ "u7" "made it"
           (resolve_emergency ⟨.ok ["5551234"]⟩ "u7" "made it"
             (activate_emergency_protocol ⟨.ok ["5551234"]⟩ "u7" ⟨37, -122⟩
               "No check-in" epInit)))).trace = 1
       ∧ authorityCount "u7"
           (advanceTo 300 (resolve_emergency ⟨.ok ["5551234"]⟩ "u7" "made it"
             (resolve_emergency ⟨.ok ["5551234"]⟩ "u7" "made it"
               (activate_emergency_protocol ⟨.ok ["5551234"]⟩ "u7" ⟨37, -122⟩
                 "No check-in" epInit)))).trace = 0) := by decide

/-- C5 amended: `resolve` is not idempotent in its notifications — each
call sends its own RESOLVED batch to every emergency contact (two calls
give `2 · |contacts|` RESOLVED messages), and because nothing is
cancelled the authority-escalation message is still produced exactly once
at the 300-second deadline. -/
theorem c5_resolve_batches_accumulate
    (cs : List String) (uid r1 r2 reason : String) (loc : EPLocation)
    (T : Nat) (hT : 300 ≤ T) :
    resolvedUpdateCount uid
        (advanceTo T (resolve_emergency ⟨.ok cs⟩ uid r2
          (resolve_emergency ⟨.ok cs⟩ uid r1
            (activate_emergency_protocol ⟨.ok cs⟩ uid loc reason epInit)))).trace
      = 2 * cs.length
    ∧ authorityCount uid
        (advanceTo T (resolve_emergency ⟨.ok cs⟩ uid r2
          (resolve_emergency ⟨.ok cs⟩ uid r1
            (activate_emergency_protocol ⟨.ok cs⟩ uid loc reason epInit)))).trace
      = 1 := by
  have hT' : ¬ (T < 300) := by omega
  constructor
  · simp [activate_emergency_protocol, advanceTo, resolve_emergency, epInit,
      notify_emergency_contacts, send_emergency_update, hT, hT',
      resolvedUpdateCount_update_map]
    omega
  · simp [activate_emergency_protocol, advanceTo, resolve_emergency, epInit,
      notify_emergency_contacts, send_emergency_update, hT, hT']

/-- C5 witness: one contact, two resolves, deadline at t=300. -/
theorem c5_resolve_batches_accumulate_witness :
    resolvedUpdateCount "u7"
        (advanceTo 300 (resolve_emergency ⟨.ok ["5551234"]⟩ "u7" "made it"
          (resolve_emergency ⟨.ok ["5551234"]⟩ "u7" "home now"
            (activate_emergency_protocol ⟨.ok ["5551234"]⟩ "u7" ⟨37, -122⟩
              "No check-in" epInit)))).trace
      = 2 * ["5551234"].length
    ∧ authorityCount "u7"
        (advanceTo 300 (resolve_emergency ⟨.ok ["5551234"]⟩ "u7" "made it"
          (resolve_emergency ⟨.ok ["5551234"]⟩ "u7" "home now"
            (activate_emergency_protocol ⟨.ok ["5551234"]⟩ "u7" ⟨37, -122⟩
              "No check-in" epInit)))).trace
      = 1 :=
  c5_resolve_batches_accumulate ["5551234"] "u7" "home now" "made it"
    "No check-in" ⟨37, -122⟩ 300 (by decide)

/-- C10 counterexample: start monitoring, handle one conversational
request to completion, and let the monitor evaluate its loop guard — the
monitoring loop terminates although no external stop (`sessionEnd`)
occurred, because the request handler wrote the shared state field. -/
theorem c10_request_kills_monitor_cex :
    AgEvent.sessionEnd ∉
      [AgEvent.startMonitoring, AgEvent.requestBegin, AgEvent.requestFinish,
       AgEvent.monitorCheck]
    ∧ ¬ ((runAgent agInit
          [AgEvent.startMonitoring, AgEvent.requestBegin, AgEvent.requestFinish,
           AgEvent.monitorCheck]).monitorLoopLive = true) := by decide

/-- C10 amended: a conversational request transitions the shared state
field through RESPONDING and finally IDLE; since the monitoring loop
continues only while that same field equals MONITORING, the loop exits at
its first guard evaluation after any request completes — handling a
request does terminate the monitoring loop, so exit is not limited to
external stop or teardown. -/
theorem c10_request_terminates_monitor (st : AgentRt)
    (h : st.monitorLoopLive = true) :
    (agStep st AgEvent.requestBegin).state = AgState.responding
    ∧ (runAgent st [AgEvent.requestBegin, AgEvent.requestFinish]).state = AgState.idle
    ∧ (runAgent st [AgEvent.requestBegin, AgEvent.requestFinish,
        AgEvent.monitorCheck]).monitorLoopLive = false := by
  refine ⟨rfl, rfl, ?_⟩
  simp [runAgent, agStep, h]

/-- C10 witness: an agent that has just entered monitoring. -/
theorem c10_request_terminates_monitor_witness :
    (agStep (runAgent agInit [AgEvent.startMonitoring]) AgEvent.requestBegin).state
      = AgState.responding
    ∧ (runAgent (runAgent agInit [AgEvent.startMonitoring])
        [AgEvent.requestBegin, AgEvent.requestFinish]).state = AgState.idle
    ∧ (runAgent (runAgent agInit [AgEvent.startMonitoring])
        [AgEvent.requestBegin, AgEvent.requestFinish,
         AgEvent.monitorCheck]).monitorLoopLive = false :=
  c10_request_terminates_monitor (runAgent agInit [AgEvent.startMonitoring]) (by decide)

end SafeTrail
